import Mathlib

/-!
Verification of `src/scripts/translate.py`.

The script (after its two imports, `sys` and `googletrans.Translator`) is:
```
text = sys.argv[1]
lang = sys.argv[2]
translator = Translator()
print(translator.translate(text, dest=lang).text)
```

We embed it shallowly.  `sys.argv` is a `List String` whose head is the
program name.  The external translation service is an oracle
`Backend : String → String → Except String TranslateResponse`: applied to
the source text and the destination language it either returns a response
object (whose `text` field is the translated text) or raises an error,
which the script does not catch.  Executing the script produces a
`ScriptResult`: the outcome (success, argument-index error, or unhandled
backend error) together with the trace of observable side effects
(outbound network calls and writes to standard output), in program order.
The embedding has no other effect constructors because the script performs
no other side effect (no file writes, no environment mutation).
-/

/-- The response object returned by `translator.translate`; its `text`
field is the translated-text field the script prints. -/
structure TranslateResponse where
  text : String
deriving DecidableEq, Repr

/-- The external translation backend, modelled as an oracle from
(source text, destination language code) to either a response or a raised
error (network failure, service error, unsupported language, rate limit —
we do not distinguish them; the script treats them all alike). -/
abbrev Backend : Type := String → String → Except String TranslateResponse

/-- Observable side effects of one run of the script, in program order. -/
inductive Event where
  /-- One outbound network call: `translator.translate(text, dest=lang)`. -/
  | netCall (text lang : String)
  /-- One write of the string `s` to standard output. -/
  | stdoutWrite (s : String)
deriving DecidableEq, Repr

/-- Outcome of one invocation of the script, with its event trace. -/
inductive ScriptResult where
  /-- The script ran to completion; the process exits 0. -/
  | ok (trace : List Event)
  /-- `sys.argv[1]` or `sys.argv[2]` raised IndexError; non-zero exit. -/
  | argError (trace : List Event)
  /-- The backend call raised `err`, which propagates unhandled. -/
  | backendError (trace : List Event) (err : String)
deriving DecidableEq, Repr

/-- `translate.py`, embedded: read `sys.argv[1]` into `text`, read
`sys.argv[2]` into `lang` (either read raises IndexError when the argument
list is too short, before any network call), construct the client, make
the single backend call, and print the response's `text` field followed by
the newline `print` appends.  Any backend error propagates unhandled. -/
def runTranslate (backend : Backend) (argv : List String) : ScriptResult :=
  match argv[1]? with
  | none => ScriptResult.argError []
  | some text =>
    match argv[2]? with
    | none => ScriptResult.argError []
    | some lang =>
      match backend text lang with
      | Except.error e => ScriptResult.backendError [Event.netCall text lang] e
      | Except.ok resp =>
          ScriptResult.ok
            [Event.netCall text lang, Event.stdoutWrite (resp.text ++ "\n")]

/-- The event trace of a run. -/
def ScriptResult.trace : ScriptResult → List Event
  | ScriptResult.ok t => t
  | ScriptResult.argError t => t
  | ScriptResult.backendError t _ => t

/-- Process exit code: 0 on success, 1 (non-zero, the Python interpreter's
exit code for an unhandled exception) otherwise. -/
def ScriptResult.exitCode : ScriptResult → Nat
  | ScriptResult.ok _ => 0
  | ScriptResult.argError _ => 1
  | ScriptResult.backendError _ _ => 1

/-- Whether an event is an outbound network call. -/
def Event.isNetCall : Event → Bool
  | Event.netCall _ _ => true
  | Event.stdoutWrite _ => false

/-- Whether an event is a write to standard output. -/
def Event.isStdoutWrite : Event → Bool
  | Event.netCall _ _ => false
  | Event.stdoutWrite _ => true

/-- Everything a run writes to standard output, concatenated in order. -/
def stdoutOf (r : ScriptResult) : String :=
  String.join (r.trace.filterMap fun e =>
    match e with
    | Event.stdoutWrite s => some s
    | Event.netCall _ _ => none)

/-- The (text, lang) arguments of the network calls a run makes, in order. -/
def netCallsOf (r : ScriptResult) : List (String × String) :=
  r.trace.filterMap fun e =>
    match e with
    | Event.netCall t l => some (t, l)
    | Event.stdoutWrite _ => none

/-- A concrete backend used to instantiate theorems: translates
"hello" to Spanish as "hola" and rejects everything else. -/
def demoBackend : Backend := fun t l =>
  if t = "hello" && l = "es" then Except.ok ⟨"hola"⟩
  else Except.error "unsupported"

/-- A second concrete backend, differing from `demoBackend` everywhere
except that it returns the same response object for ("hi", "es"). -/
def demoBackend2 : Backend := fun t l =>
  if t = "hi" && l = "es" then Except.ok ⟨"hola"⟩
  else Except.error "down"

/-- Claim C1: with two positional arguments `text` and `lang`, if the
backend call succeeds with response `resp`, the script writes exactly
`resp.text` followed by a newline to standard output and nothing else,
and exits 0. -/
theorem C1_success_prints_exact_text (b : Backend) (prog text lang : String)
    (rest : List String) (resp : TranslateResponse)
    (h : b text lang = Except.ok resp) :
    runTranslate b (prog :: text :: lang :: rest) =
      ScriptResult.ok
        [Event.netCall text lang, Event.stdoutWrite (resp.text ++ "\n")] ∧
    stdoutOf (runTranslate b (prog :: text :: lang :: rest)) =
      resp.text ++ "\n" ∧
    (runTranslate b (prog :: text :: lang :: rest)).exitCode = 0 := by
  simp [runTranslate, h, stdoutOf, ScriptResult.trace, ScriptResult.exitCode,
    String.join]

/-- Witness for C1 at the spec's scenario: `translate.py "hello" "es"`
against a backend that returns `hola` prints `hola` and a newline. -/
theorem C1_success_prints_exact_text_witness :
    runTranslate demoBackend ["translate.py", "hello", "es"] =
      ScriptResult.ok
        [Event.netCall "hello" "es", Event.stdoutWrite ("hola" ++ "\n")] ∧
    stdoutOf (runTranslate demoBackend ["translate.py", "hello", "es"]) =
      "hola" ++ "\n" ∧
    (runTranslate demoBackend ["translate.py", "hello", "es"]).exitCode = 0 :=
  C1_success_prints_exact_text demoBackend "translate.py" "hello" "es" []
    ⟨"hola"⟩ (by rfl)

/-- Claim C2: with fewer than two positional arguments (an `argv` of
length below 3, counting the program name), the script terminates with the
argument-index error — a non-zero exit — and no network call is made. -/
theorem C2_missing_args_no_network (b : Backend) (argv : List String)
    (h : argv.length < 3) :
    runTranslate b argv = ScriptResult.argError [] ∧
    (runTranslate b argv).exitCode ≠ 0 ∧
    netCallsOf (runTranslate b argv) = [] := by
  rcases argv with _ | ⟨p, _ | ⟨t, _ | ⟨l, r⟩⟩⟩
  · exact ⟨rfl, by simp [runTranslate, ScriptResult.exitCode], rfl⟩
  · exact ⟨rfl, by simp [runTranslate, ScriptResult.exitCode], rfl⟩
  · exact ⟨rfl, by simp [runTranslate, ScriptResult.exitCode], rfl⟩
  · simp only [List.length_cons] at h
    omega

/-- Witness for C2 at the spec's scenario: `translate.py "hello"` with
the second argument missing. -/
theorem C2_missing_args_no_network_witness :
    (["translate.py", "hello"] : List String).length < 3 ∧
    (runTranslate demoBackend ["translate.py", "hello"] =
        ScriptResult.argError [] ∧
      (runTranslate demoBackend ["translate.py", "hello"]).exitCode ≠ 0 ∧
      netCallsOf (runTranslate demoBackend ["translate.py", "hello"]) = []) :=
  ⟨by decide,
    C2_missing_args_no_network demoBackend ["translate.py", "hello"]
      (by decide)⟩

/-- Claim C3: with both arguments present, the process exits 0 exactly
when the backend call succeeds; any error the backend raises propagates
unhandled as a `backendError` outcome (nothing is caught); and exactly one
backend call is made (no retry). -/
theorem C3_backend_error_propagates (b : Backend) (p t l : String)
    (r : List String) :
    ((runTranslate b (p :: t :: l :: r)).exitCode = 0 ↔
      ∃ resp, b t l = Except.ok resp) ∧
    (∀ e, b t l = Except.error e →
      runTranslate b (p :: t :: l :: r) =
        ScriptResult.backendError [Event.netCall t l] e) ∧
    netCallsOf (runTranslate b (p :: t :: l :: r)) = [(t, l)] := by
  cases hb : b t l with
  | error e =>
      refine ⟨?_, ?_, ?_⟩
      · simp [runTranslate, hb, ScriptResult.exitCode]
      · intro e' he
        cases he
        simp [runTranslate, hb]
      · simp [runTranslate, hb, netCallsOf, ScriptResult.trace]
  | ok resp =>
      refine ⟨?_, ?_, ?_⟩
      · simp [runTranslate, hb, ScriptResult.exitCode]
      · intro e' he
        cases he
      · simp [runTranslate, hb, netCallsOf, ScriptResult.trace]

/-- Witness for C3 at a concrete failing language code: `demoBackend`
rejects ("hello", "zz"), and the instantiated statement is closed. -/
theorem C3_backend_error_propagates_witness :
    ((runTranslate demoBackend ["translate.py", "hello", "zz"]).exitCode = 0 ↔
      ∃ resp, demoBackend "hello" "zz" = Except.ok resp) ∧
    (∀ e, demoBackend "hello" "zz" = Except.error e →
      runTranslate demoBackend ["translate.py", "hello", "zz"] =
        ScriptResult.backendError [Event.netCall "hello" "zz"] e) ∧
    netCallsOf (runTranslate demoBackend ["translate.py", "hello", "zz"]) =
      [("hello", "zz")] :=
  C3_backend_error_propagates demoBackend "translate.py" "hello" "zz" []

/-- Claim C4: with at least two arguments present, positional argument 1
(the source text) and positional argument 2 (the language code) are passed
to the backend call unmodified: the first event of every run is the
network call carrying exactly those two strings. -/
theorem C4_args_passed_unmodified (b : Backend) (p t l : String)
    (r : List String) :
    (runTranslate b (p :: t :: l :: r)).trace.head? =
      some (Event.netCall t l) := by
  cases hb : b t l with
  | error e => simp [runTranslate, hb, ScriptResult.trace]
  | ok resp => simp [runTranslate, hb, ScriptResult.trace]

/-- Claim C5: the script applies no transformation of its own — the
printed output is a pure function of the backend response's translated-text
field.  Two runs (different backends, program names, texts, languages,
extra arguments) whose backend calls return the same response print
identical output. -/
theorem C5_output_pure_function_of_response
    (b₁ b₂ : Backend) (p₁ t₁ l₁ p₂ t₂ l₂ : String) (r₁ r₂ : List String)
    (resp : TranslateResponse)
    (h₁ : b₁ t₁ l₁ = Except.ok resp) (h₂ : b₂ t₂ l₂ = Except.ok resp) :
    stdoutOf (runTranslate b₁ (p₁ :: t₁ :: l₁ :: r₁)) =
      stdoutOf (runTranslate b₂ (p₂ :: t₂ :: l₂ :: r₂)) := by
  simp [runTranslate, h₁, h₂, stdoutOf, ScriptResult.trace]

/-- Witness for C5: two different backends and different inputs that
happen to yield the same response object print the same output. -/
theorem C5_output_pure_function_of_response_witness :
    demoBackend "hello" "es" = Except.ok ⟨"hola"⟩ ∧
    demoBackend2 "hi" "es" = Except.ok ⟨"hola"⟩ ∧
    stdoutOf (runTranslate demoBackend ["translate.py", "hello", "es"]) =
      stdoutOf (runTranslate demoBackend2 ["prog", "hi", "es", "extra"]) :=
  ⟨by rfl, by rfl,
    C5_output_pure_function_of_response demoBackend demoBackend2
      "translate.py" "hello" "es" "prog" "hi" "es" [] ["extra"] ⟨"hola"⟩
      (by rfl) (by rfl)⟩

/-- Claim C6: the script validates nothing locally.  For every `text`
(including the empty string) and every `lang` (recognized or not), with
both arguments present the run never ends in the argument error and always
submits exactly the pair (text, lang), unchanged, to the backend; any
rejection is the backend's. -/
theorem C6_no_local_validation (b : Backend) (p l : String)
    (r : List String) :
    (∀ t, runTranslate b (p :: t :: l :: r) ≠ ScriptResult.argError [] ∧
      netCallsOf (runTranslate b (p :: t :: l :: r)) = [(t, l)]) ∧
    netCallsOf (runTranslate b (p :: "" :: l :: r)) = [("", l)] := by
  have key : ∀ t : String,
      runTranslate b (p :: t :: l :: r) ≠ ScriptResult.argError [] ∧
      netCallsOf (runTranslate b (p :: t :: l :: r)) = [(t, l)] := by
    intro t
    cases hb : b t l with
    | error e =>
        exact ⟨by simp [runTranslate, hb],
          by simp [runTranslate, hb, netCallsOf, ScriptResult.trace]⟩
    | ok resp =>
        exact ⟨by simp [runTranslate, hb],
          by simp [runTranslate, hb, netCallsOf, ScriptResult.trace]⟩
  exact ⟨key, (key "").2⟩

/-- Every trace of the script is one of three prefixes of the linear
sequence call-then-print: empty, a lone network call, or a network call
followed by one write to standard output. -/
theorem runTranslate_trace_shape (b : Backend) (argv : List String) :
    (runTranslate b argv).trace = [] ∨
    (∃ t l, (runTranslate b argv).trace = [Event.netCall t l]) ∨
    (∃ t l s, (runTranslate b argv).trace =
      [Event.netCall t l, Event.stdoutWrite s]) := by
  rcases argv with _ | ⟨p, _ | ⟨t, _ | ⟨l, r⟩⟩⟩
  · exact Or.inl rfl
  · exact Or.inl rfl
  · exact Or.inl rfl
  · cases hb : b t l with
    | error e =>
        exact Or.inr (Or.inl ⟨t, l,
          by simp [runTranslate, hb, ScriptResult.trace]⟩)
    | ok resp =>
        exact Or.inr (Or.inr ⟨t, l, resp.text ++ "\n",
          by simp [runTranslate, hb, ScriptResult.trace]⟩)

/-- Claim C7: every run is the single linear sequence parse → call →
print, with no branch and no loop: the trace is empty (argument error
before any call), a lone network call (backend error before the print), or
a network call followed by exactly one write — so the backend is called at
most once and any write is strictly preceded by the call. -/
theorem C7_linear_sequence (b : Backend) (argv : List String) :
    (runTranslate b argv).trace = [] ∨
    (∃ t l, (runTranslate b argv).trace = [Event.netCall t l]) ∨
    (∃ t l s, (runTranslate b argv).trace =
      [Event.netCall t l, Event.stdoutWrite s]) :=
  runTranslate_trace_shape b argv

/-- Claim C8: on any invocation the only side effects are at most one
outbound network call and at most one write to standard output, and every
event in the trace is one of those two kinds — the embedding records no
file write or environment mutation because the script performs none. -/
theorem C8_side_effects_bounded (b : Backend) (argv : List String) :
    (runTranslate b argv).trace.countP Event.isNetCall ≤ 1 ∧
    (runTranslate b argv).trace.countP Event.isStdoutWrite ≤ 1 ∧
    ∀ e ∈ (runTranslate b argv).trace,
      Event.isNetCall e = true ∨ Event.isStdoutWrite e = true := by
  rcases runTranslate_trace_shape b argv with h | ⟨t, l, h⟩ | ⟨t, l, s, h⟩ <;>
    rw [h] <;>
    simp [Event.isNetCall, Event.isStdoutWrite]

/-- Claim C9: on every failure path — missing arguments or a backend
error — the script writes nothing to standard output: a run with a
non-zero exit code has empty standard output. -/
theorem C9_failure_writes_nothing (b : Backend) (argv : List String)
    (h : (runTranslate b argv).exitCode ≠ 0) :
    stdoutOf (runTranslate b argv) = "" := by
  rcases argv with _ | ⟨p, _ | ⟨t, _ | ⟨l, r⟩⟩⟩
  · rfl
  · rfl
  · rfl
  · cases hb : b t l with
    | error e =>
        simp [runTranslate, hb, stdoutOf, ScriptResult.trace, String.join]
    | ok resp =>
        exact absurd (by simp [runTranslate, hb, ScriptResult.exitCode]) h

/-- Witness for C9: the failing run `translate.py "hello" "zz"` (backend
rejects the language) exits non-zero and prints nothing. -/
theorem C9_failure_writes_nothing_witness :
    (runTranslate demoBackend ["translate.py", "hello", "zz"]).exitCode ≠ 0 ∧
    stdoutOf (runTranslate demoBackend ["translate.py", "hello", "zz"]) = "" :=
  ⟨by decide,
    C9_failure_writes_nothing demoBackend ["translate.py", "hello", "zz"]
      (by decide)⟩

/-- Claim C10: arguments beyond the first two are ignored: with the same
first two positional arguments, any two tails of extra arguments give the
same result entirely — same trace, same output, same exit status. -/
theorem C10_extra_args_ignored (b : Backend) (p t l : String)
    (r r' : List String) :
    runTranslate b (p :: t :: l :: r) = runTranslate b (p :: t :: l :: r') := by
  cases hb : b t l <;> simp [runTranslate, hb]
